import Mathlib

/-!
# Verification of hyprvoice against its specification

Shallow embedding of the hyprvoice daemon (Go) in Lean 4: the configuration
model and validation (`internal/config/config.go`), the transcriber factory
(`internal/transcriber/transcriber.go`), the transcription adapters
(`adapter_whisper_cpp.go`, the Mistral adapter), the injector
(`internal/injection`), the daemon control loop (`internal/daemon`), the
control-bus client (`cmd` main), message resolution
(`MessagesConfig.Resolve` / `internal/notify/message.go`), and legacy config
migration (`Config.migrateInjectionMode`).

Side effects (HTTP calls, subprocess invocations, log lines, notifications)
are made explicit: functions return, next to their Go result, a trace of the
external operations they performed, so that "no network call happened" is a
statement about an empty trace.
-/

namespace Hyprvoice

/-- Go `time.Duration`: a signed count of nanoseconds. -/
abbrev Duration := Int

/-- One second, in nanoseconds. -/
def second : Duration := 1000000000

/-! ## Configuration data model (internal/config/config.go) -/

/-- Go `RecordingConfig` from config.go. -/
structure RecordingConfig where
  sampleRate : Int
  channels : Int
  format : String
  bufferSize : Int
  device : String
  channelBufferSize : Int
  timeout : Duration
deriving Repr, DecidableEq

/-- Go `TranscriptionConfig` from config.go. -/
structure TranscriptionConfig where
  provider : String
  apiKey : String
  language : String
  model : String
  serverURL : String
deriving Repr, DecidableEq

/-- Go `InjectionConfig` from config.go (current, backends-based form). -/
structure InjectionConfig where
  backends : List String
  ydotoolTimeout : Duration
  wtypeTimeout : Duration
  wtypeDelay : Duration
  clipboardTimeout : Duration
deriving Repr, DecidableEq

/-- Go `MessageConfig` from config.go: one user override entry. -/
structure MessageConfig where
  title : String
  body : String
deriving Repr, DecidableEq

/-- Go `MessagesConfig` from config.go: the six override slots, with their
TOML tags `recording_started`, `transcribing`, `config_reloaded`,
`operation_cancelled`, `recording_aborted`, `injection_aborted`. -/
structure MessagesConfig where
  recordingStarted : MessageConfig
  transcribing : MessageConfig
  configReloaded : MessageConfig
  operationCancelled : MessageConfig
  recordingAborted : MessageConfig
  injectionAborted : MessageConfig
deriving Repr, DecidableEq

/-- Go `NotificationsConfig` from config.go. -/
structure NotificationsConfig where
  enabled : Bool
  type : String
  messages : MessagesConfig
deriving Repr, DecidableEq

/-- Top-level `Config` from config.go. -/
structure Config where
  recording : RecordingConfig
  transcription : TranscriptionConfig
  injection : InjectionConfig
  notifications : NotificationsConfig
deriving Repr, DecidableEq

/-- The process environment variables consulted by config.go via
`os.Getenv`; the empty string models an unset variable, exactly as Go's
`os.Getenv` returns `""` for missing variables. -/
structure Env where
  openaiAPIKey : String
  groqAPIKey : String
  mistralAPIKey : String
deriving Repr, DecidableEq

/-- The ISO-639-1 codes accepted by `isValidLanguageCode` in config.go. -/
def validLanguageCodes : List String :=
  ["en", "es", "fr", "de", "it", "pt",
   "ru", "ja", "ko", "zh", "ar", "hi",
   "nl", "sv", "da", "no", "fi", "pl",
   "tr", "he", "th", "vi", "id", "ms",
   "uk", "cs", "hu", "ro", "bg", "hr",
   "sk", "sl", "et", "lv", "lt", "mt",
   "cy", "ga", "eu", "ca", "gl", "is",
   "mk", "sq", "az", "be", "ka", "hy",
   "kk", "ky", "tg", "uz", "mn", "ne",
   "si", "km", "lo", "my", "fa", "ps",
   "ur", "bn", "ta", "te", "ml", "kn",
   "gu", "pa", "or", "as", "mr", "sa",
   "sw", "yo", "ig", "ha", "zu", "xh",
   "af", "am", "mg", "so", "sn", "rw"]

/-- Go `isValidLanguageCode` from config.go. -/
def isValidLanguageCode (code : String) : Bool :=
  validLanguageCodes.contains code

/-- The validation errors `Config.Validate` can return, one constructor per
`fmt.Errorf` site in config.go (the formatted message text is elided; the
constructor and payload identify the site). -/
inductive ConfigError where
  | invalidSampleRate (n : Int)
  | invalidChannels (n : Int)
  | invalidBufferSize (n : Int)
  | invalidChannelBufferSize (n : Int)
  | invalidFormatEmpty
  | invalidRecordingTimeout (d : Duration)
  | invalidProviderEmpty
  | openaiKeyRequired
  | groqKeyRequired
  | mistralKeyRequired
  | whisperCppServerURLRequired
  | invalidLanguage (code : String)
  | invalidGroqTranscriptionModel (m : String)
  | invalidGroqTranslationModel (m : String)
  | invalidMistralModel (m : String)
  | unsupportedProvider (p : String)
  | invalidModelEmpty
  | invalidBackendsEmpty
  | unknownBackend (b : String)
  | invalidYdotoolTimeout (d : Duration)
  | invalidWtypeTimeout (d : Duration)
  | invalidClipboardTimeout (d : Duration)
  | invalidNotificationsType (t : String)
deriving Repr, DecidableEq

/-- The injection backend names accepted by `Config.Validate`. -/
def validBackends : List String := ["ydotool", "wtype", "clipboard"]

/-- The notification types accepted by `Config.Validate`. -/
def validNotificationTypes : List String := ["desktop", "log", "none"]

/-- Check of the backend list in `Config.Validate` (first unknown backend
wins, in order, mirroring the `for` loop). -/
def firstUnknownBackend : List String → Option String
  | [] => none
  | b :: rest => if validBackends.contains b then firstUnknownBackend rest else some b

/-- The models `Config.Validate` accepts for `groq-transcription`. -/
def validGroqModels : List String := ["whisper-large-v3", "whisper-large-v3-turbo"]

/-- The models `Config.Validate` accepts for `mistral-transcription`. -/
def validMistralModels : List String := ["voxtral-mini-latest", "voxtral-mini-2507"]

/-- The provider-specific part of `Config.Validate` (the `switch` on
`c.Transcription.Provider`). Returns the first error or `none`. -/
def validateProvider (t : TranscriptionConfig) (env : Env) : Option ConfigError :=
  if t.provider = "openai" then
    let apiKey := if t.apiKey = "" then env.openaiAPIKey else t.apiKey
    if apiKey = "" then some .openaiKeyRequired
    else if t.language ≠ "" && !isValidLanguageCode t.language then
      some (.invalidLanguage t.language)
    else none
  else if t.provider = "groq-transcription" then
    let apiKey := if t.apiKey = "" then env.groqAPIKey else t.apiKey
    if apiKey = "" then some .groqKeyRequired
    else if t.language ≠ "" && !isValidLanguageCode t.language then
      some (.invalidLanguage t.language)
    else if t.model ≠ "" && !validGroqModels.contains t.model then
      some (.invalidGroqTranscriptionModel t.model)
    else none
  else if t.provider = "groq-translation" then
    let apiKey := if t.apiKey = "" then env.groqAPIKey else t.apiKey
    if apiKey = "" then some .groqKeyRequired
    else if t.language ≠ "" && !isValidLanguageCode t.language then
      some (.invalidLanguage t.language)
    else if t.model ≠ "" && t.model ≠ "whisper-large-v3" then
      some (.invalidGroqTranslationModel t.model)
    else none
  else if t.provider = "mistral-transcription" then
    let apiKey := if t.apiKey = "" then env.mistralAPIKey else t.apiKey
    if apiKey = "" then some .mistralKeyRequired
    else if t.language ≠ "" && !isValidLanguageCode t.language then
      some (.invalidLanguage t.language)
    else if t.model ≠ "" && !validMistralModels.contains t.model then
      some (.invalidMistralModel t.model)
    else none
  else if t.provider = "whisper-cpp" then
    if t.serverURL = "" then some .whisperCppServerURLRequired
    else if t.language ≠ "" && !isValidLanguageCode t.language then
      some (.invalidLanguage t.language)
    else none
  else some (.unsupportedProvider t.provider)

/-- Go `Config.Validate` from config.go: returns the first failing check's
error, or `none` when the snapshot is valid (Go: `nil`). -/
def Config.validate (c : Config) (env : Env) : Option ConfigError :=
  if c.recording.sampleRate ≤ 0 then some (.invalidSampleRate c.recording.sampleRate)
  else if c.recording.channels ≤ 0 then some (.invalidChannels c.recording.channels)
  else if c.recording.bufferSize ≤ 0 then some (.invalidBufferSize c.recording.bufferSize)
  else if c.recording.channelBufferSize ≤ 0 then
    some (.invalidChannelBufferSize c.recording.channelBufferSize)
  else if c.recording.format = "" then some .invalidFormatEmpty
  else if c.recording.timeout ≤ 0 then some (.invalidRecordingTimeout c.recording.timeout)
  else if c.transcription.provider = "" then some .invalidProviderEmpty
  else match validateProvider c.transcription env with
  | some e => some e
  | none =>
    if c.transcription.provider ≠ "whisper-cpp" && c.transcription.model = "" then
      some .invalidModelEmpty
    else if c.injection.backends = [] then some .invalidBackendsEmpty
    else match firstUnknownBackend c.injection.backends with
    | some b => some (.unknownBackend b)
    | none =>
      if c.injection.ydotoolTimeout ≤ 0 then
        some (.invalidYdotoolTimeout c.injection.ydotoolTimeout)
      else if c.injection.wtypeTimeout ≤ 0 then
        some (.invalidWtypeTimeout c.injection.wtypeTimeout)
      else if c.injection.clipboardTimeout ≤ 0 then
        some (.invalidClipboardTimeout c.injection.clipboardTimeout)
      else if !validNotificationTypes.contains c.notifications.type then
        some (.invalidNotificationsType c.notifications.type)
      else none

/-! ## Transcriber factory (internal/transcriber/transcriber.go) -/

/-- Go `transcriber.Config`. -/
structure TranscriberConfig where
  provider : String
  apiKey : String
  language : String
  model : String
  serverURL : String
deriving Repr, DecidableEq

/-- Go `Config.ToTranscriberConfig` from config.go: copies the transcription
fields and falls back to a provider-family environment variable when the
config has no API key. -/
def Config.toTranscriberConfig (c : Config) (env : Env) : TranscriberConfig :=
  let base : TranscriberConfig :=
    { provider := c.transcription.provider
      apiKey := c.transcription.apiKey
      language := c.transcription.language
      model := c.transcription.model
      serverURL := c.transcription.serverURL }
  if base.apiKey = "" then
    if c.transcription.provider = "openai" then
      { base with apiKey := env.openaiAPIKey }
    else if c.transcription.provider = "groq-transcription" ||
            c.transcription.provider = "groq-translation" then
      { base with apiKey := env.groqAPIKey }
    else if c.transcription.provider = "mistral-transcription" then
      { base with apiKey := env.mistralAPIKey }
    else base
  else base

/-- The transcription adapter variants constructed by `NewTranscriber`.
`mistral` corresponds to `NewMistralAdapter` (adapter_mistral.go), which
exists in the package but is not reachable from `NewTranscriber`. -/
inductive Adapter where
  | openai (config : TranscriberConfig)
  | groqTranscription (config : TranscriberConfig)
  | groqTranslation (config : TranscriberConfig)
  | mistral (config : TranscriberConfig)
  | whisperCpp (config : TranscriberConfig)
deriving Repr, DecidableEq

/-- Go `NewTranscriber` from transcriber.go: the `switch config.Provider`
selecting the adapter. The success value is the adapter handed to
`NewSimpleTranscriber`; error strings are the `fmt.Errorf` texts. Note the
source has **no** `mistral-transcription` case: that provider falls into
`default`. -/
def NewTranscriber (config : TranscriberConfig) : Except String Adapter :=
  if config.provider = "openai" then
    if config.apiKey = "" then .error "OpenAI API key required"
    else .ok (.openai config)
  else if config.provider = "groq-transcription" then
    if config.apiKey = "" then .error "Groq API key required"
    else .ok (.groqTranscription config)
  else if config.provider = "groq-translation" then
    if config.apiKey = "" then .error "Groq API key required"
    else .ok (.groqTranslation config)
  else if config.provider = "whisper-cpp" then
    if config.serverURL = "" then .error "whisper.cpp server URL required"
    else .ok (.whisperCpp config)
  else .error ("unsupported provider: " ++ config.provider)

/-- A concrete configuration snapshot selecting the Mistral provider with a
non-empty API key (the shape used by the repository's own
`TestNewTranscriber` "valid mistral-transcription config" case, completed
with the valid recording / injection / notification values of
`createTestConfig`). -/
def mistralSnapshot : Config :=
  { recording :=
      { sampleRate := 16000, channels := 1, format := "s16", bufferSize := 8192,
        device := "", channelBufferSize := 30, timeout := 300 * second }
    transcription :=
      { provider := "mistral-transcription", apiKey := "test-key", language := "de",
        model := "voxtral-mini-latest", serverURL := "" }
    injection :=
      { backends := ["ydotool", "wtype", "clipboard"], ydotoolTimeout := 5 * second,
        wtypeTimeout := 5 * second, wtypeDelay := 0, clipboardTimeout := 3 * second }
    notifications :=
      { enabled := true, type := "log"
        messages :=
          { recordingStarted := ⟨"", ""⟩, transcribing := ⟨"", ""⟩,
            configReloaded := ⟨"", ""⟩, operationCancelled := ⟨"", ""⟩,
            recordingAborted := ⟨"", ""⟩, injectionAborted := ⟨"", ""⟩ } } }

/-- An environment with no relevant variables set. -/
def emptyEnv : Env := { openaiAPIKey := "", groqAPIKey := "", mistralAPIKey := "" }

/-- C1: For every configuration snapshot for which Config.Validate() returns
nil (in particular one with transcription.provider = "mistral-transcription"
and a non-empty API key), constructing the pipeline's transcriber via
NewTranscriber on the snapshot's transcriber view succeeds. — FAILS on the
code: `Config.Validate` accepts the `mistral-transcription` provider, yet
`NewTranscriber` has no case for it and returns the `unsupported provider`
error, even though `NewMistralAdapter` exists and the package's own
`TestNewTranscriber` expects success. This theorem evaluates the code at the
failing input. -/
theorem newTranscriber_rejects_validated_mistral_snapshot :
    Config.validate mistralSnapshot emptyEnv = none ∧
    NewTranscriber (Config.toTranscriberConfig mistralSnapshot emptyEnv) =
      .error "unsupported provider: mistral-transcription" := by
  constructor <;> rfl

/-! ## Notification messages (internal/notify/message.go, MessagesConfig.Resolve) -/

/-- Go `notify.MessageType`. -/
inductive MessageType where
  | recordingStarted
  | transcribing
  | configReloaded
  | operationCancelled
  | recordingAborted
  | injectionAborted
deriving Repr, DecidableEq

/-- Go `notify.MessageDef`. -/
structure MessageDef where
  type : MessageType
  configKey : String
  defaultTitle : String
  defaultBody : String
  isError : Bool
deriving Repr, DecidableEq

/-- Go `notify.MessageDefs`, the single source of truth for all notification
messages (message.go). -/
def MessageDefs : List MessageDef :=
  [⟨.recordingStarted, "recording_started", "Hyprvoice", "Recording Started", false⟩,
   ⟨.transcribing, "transcribing", "Hyprvoice", "Recording Ended... Transcribing", false⟩,
   ⟨.configReloaded, "config_reloaded", "Hyprvoice", "Config Reloaded", false⟩,
   ⟨.operationCancelled, "operation_cancelled", "Hyprvoice", "Operation Cancelled", false⟩,
   ⟨.recordingAborted, "recording_aborted", "", "Recording Aborted", true⟩,
   ⟨.injectionAborted, "injection_aborted", "", "Injection Aborted", true⟩]

/-- Go `notify.Message`: a resolved message ready for display. -/
structure Message where
  title : String
  body : String
  isError : Bool
deriving Repr, DecidableEq

/-- The TOML-tag-to-field map `Resolve` builds by reflection (`tagToField`):
each `toml` tag of `MessagesConfig` yields its field; a key that is no tag
of the struct yields nothing (the `ok == false` branch). -/
def MessagesConfig.fieldForTag (m : MessagesConfig) (tag : String) : Option MessageConfig :=
  if tag = "recording_started" then some m.recordingStarted
  else if tag = "transcribing" then some m.transcribing
  else if tag = "config_reloaded" then some m.configReloaded
  else if tag = "operation_cancelled" then some m.operationCancelled
  else if tag = "recording_aborted" then some m.recordingAborted
  else if tag = "injection_aborted" then some m.injectionAborted
  else none

/-- Go `MessagesConfig.Resolve` from config.go: iterate `MessageDefs`; start
each entry from the defaults, overwrite title and body with the user value
when that value is non-empty, and collect the entries into the result map,
modelled as an association list keyed by `MessageType`. -/
def MessagesConfig.resolve (m : MessagesConfig) : List (MessageType × Message) :=
  MessageDefs.map (fun d =>
    let base : Message := ⟨d.defaultTitle, d.defaultBody, d.isError⟩
    let withUser : Message :=
      match m.fieldForTag d.configKey with
      | some userMsg =>
        let t := if userMsg.title ≠ "" then { base with title := userMsg.title } else base
        if userMsg.body ≠ "" then { t with body := userMsg.body } else t
      | none => base
    (d.type, withUser))

/-- Lookup in the resolved message map (Go: `result[def.Type]`). -/
def lookupType (mt : MessageType) : List (MessageType × Message) → Option Message
  | [] => none
  | (k, v) :: rest => if mt = k then some v else lookupType mt rest

/-- The `MessageDef` of a message type, read directly off `MessageDefs`. -/
def defFor : MessageType → MessageDef
  | .recordingStarted => ⟨.recordingStarted, "recording_started", "Hyprvoice", "Recording Started", false⟩
  | .transcribing => ⟨.transcribing, "transcribing", "Hyprvoice", "Recording Ended... Transcribing", false⟩
  | .configReloaded => ⟨.configReloaded, "config_reloaded", "Hyprvoice", "Config Reloaded", false⟩
  | .operationCancelled => ⟨.operationCancelled, "operation_cancelled", "Hyprvoice", "Operation Cancelled", false⟩
  | .recordingAborted => ⟨.recordingAborted, "recording_aborted", "", "Recording Aborted", true⟩
  | .injectionAborted => ⟨.injectionAborted, "injection_aborted", "", "Injection Aborted", true⟩

/-- The user override slot of `MessagesConfig` for a message type. -/
def userOverride (m : MessagesConfig) : MessageType → MessageConfig
  | .recordingStarted => m.recordingStarted
  | .transcribing => m.transcribing
  | .configReloaded => m.configReloaded
  | .operationCancelled => m.operationCancelled
  | .recordingAborted => m.recordingAborted
  | .injectionAborted => m.injectionAborted

set_option maxHeartbeats 2000000

/-- C10: For every MessagesConfig, Resolve returns an entry for every
message type listed in MessageDefs, and each entry's title (respectively
body) equals the user-configured value when that value is a non-empty
string and the default from MessageDefs otherwise; in particular an
override set to the empty string cannot clear a default title or body. -/
theorem resolve_merges_user_values_over_defaults
    (m : MessagesConfig) (mt : MessageType) :
    lookupType mt (MessagesConfig.resolve m) =
      some ⟨if (userOverride m mt).title ≠ "" then (userOverride m mt).title
              else (defFor mt).defaultTitle,
            if (userOverride m mt).body ≠ "" then (userOverride m mt).body
              else (defFor mt).defaultBody,
            (defFor mt).isError⟩ := by
  cases mt <;>
    simp only [MessagesConfig.resolve, MessageDefs, MessagesConfig.fieldForTag,
      defFor, userOverride, List.map, lookupType, reduceIte] <;>
    (repeat' split) <;> simp_all

set_option maxHeartbeats 400000

/-! ## Transcription adapters (adapter_whisper_cpp.go, adapter_mistral.go)

Network effects are explicit: each `Transcribe` returns, next to its Go
result, the list of HTTP calls it made and the log lines it wrote. The
outcome of an HTTP round-trip is an oracle argument, so the functions stay
pure while covering every network behaviour. -/

/-- An HTTP call performed by an adapter, reduced to the fields that
distinguish the calls: `rawPost` is the whisper.cpp `http.NewRequestWithContext`
POST, `hostedCall` is a `client.CreateTranscription` through the go-openai
client (base URL, model, language). -/
inductive AdapterRequest where
  | rawPost (url language : String)
  | hostedCall (baseURL model language : String)
deriving Repr, DecidableEq

/-- Trace of the external operations of one `Transcribe` call. -/
structure AdapterTrace where
  requests : List AdapterRequest
  logs : List String
deriving Repr, DecidableEq

/-- No external operation performed. -/
def AdapterTrace.empty : AdapterTrace := ⟨[], []⟩

/-- The response seen by the whisper.cpp adapter: status code, raw body (as
read by `io.ReadAll`), and the result of `json.NewDecoder(...).Decode` on
the body (`none` models a decode error). -/
structure HttpResponse where
  statusCode : Nat
  body : String
  textField : Option String
deriving Repr, DecidableEq

/-- Outcome of `a.client.Do(req)` for the whisper.cpp adapter. -/
inductive HttpOutcome where
  | netError (msg : String)
  | response (r : HttpResponse)
deriving Repr, DecidableEq

/-- Outcome of a hosted `client.CreateTranscription` call (the go-openai
client reports non-2xx statuses and I/O failures as errors). -/
inductive HostedOutcome where
  | failure (msg : String)
  | success (text : String)
deriving Repr, DecidableEq

/-- Little-endian bytes of a 32-bit value, as written into a WAV header. -/
def le32 (n : Nat) : List Nat :=
  [n % 256, n / 256 % 256, n / 65536 % 256, n / 16777216 % 256]

/-- Modelled from the spec: `convertToWAV` (wav.go is not under src/).
Per §4.3 the adapter wraps raw PCM in a canonical WAV container: RIFF
header, fmt chunk describing linear PCM (mono 16-bit 16 kHz — the call site
passes no recording parameters), data chunk whose size is the payload
length; chunk sizes are computed from the payload length. -/
def convertToWAV (pcm : List Nat) : List Nat :=
  let n := pcm.length
  [82, 73, 70, 70] ++ le32 (36 + n) ++ [87, 65, 86, 69] ++
  [102, 109, 116, 32] ++ le32 16 ++ [1, 0, 1, 0] ++ le32 16000 ++
  le32 32000 ++ [2, 0, 16, 0] ++
  [100, 97, 116, 97] ++ le32 n ++ pcm

/-- Go `WhisperCppAdapter.Transcribe` from adapter_whisper_cpp.go: empty input
returns `("", nil)` immediately; otherwise the PCM is wrapped as WAV, one
POST is sent to the configured server URL (with the language field when
non-empty), a non-200 status yields the `whisper.cpp server error` with the
code (the body goes to the log only), and a 200 response is JSON-decoded
for its text field. -/
def whisperCppTranscribe (cfg : TranscriberConfig) (net : HttpOutcome)
    (audioData : List Nat) : Except String String × AdapterTrace :=
  if audioData.length = 0 then (.ok "", .empty)
  else
    let _wav := convertToWAV audioData
    let req : AdapterRequest := .rawPost cfg.serverURL cfg.language
    match net with
    | .netError msg =>
      (.error ("send request to whisper.cpp server: " ++ msg), ⟨[req], []⟩)
    | .response r =>
      if r.statusCode ≠ 200 then
        (.error ("whisper.cpp server error: status " ++ toString r.statusCode),
         ⟨[req], ["whisper-cpp-adapter: server returned status " ++
                  toString r.statusCode ++ ": " ++ r.body]⟩)
      else
        match r.textField with
        | none => (.error "decode response", ⟨[req], []⟩)
        | some text =>
          (.ok text,
           ⟨[req], ["whisper-cpp-adapter: transcribed " ++
                    toString audioData.length ++ " bytes: " ++ text]⟩)

/-- Go `MistralAdapter.Transcribe` from adapter_mistral.go: empty input returns
`("", nil)` immediately; otherwise the WAV-wrapped audio is sent through the
go-openai client against `https://api.mistral.ai/v1`, errors come back as
`mistral transcription: <cause>`. -/
def mistralTranscribe (cfg : TranscriberConfig) (hosted : HostedOutcome)
    (audioData : List Nat) : Except String String × AdapterTrace :=
  if audioData.length = 0 then (.ok "", .empty)
  else
    let _wav := convertToWAV audioData
    let req : AdapterRequest := .hostedCall "https://api.mistral.ai/v1" cfg.model cfg.language
    match hosted with
    | .failure msg =>
      (.error ("mistral transcription: " ++ msg),
       ⟨[req], ["mistral-adapter: API call failed: " ++ msg]⟩)
    | .success text =>
      (.ok text,
       ⟨[req], ["mistral-adapter: transcribed " ++
                toString audioData.length ++ " bytes: " ++ text]⟩)

/-- Modelled from the spec: the OpenAI and Groq adapters (adapter_openai.go,
adapter_groq.go are not under src/). Per §4.3 every hosted adapter applies
the common pre-processing — zero-length input yields an empty transcript
with no network call — and otherwise POSTs one multipart WAV with model and
optional language through its client, propagating failures with their
cause. -/
def hostedTranscribe (baseURL : String) (cfg : TranscriberConfig)
    (hosted : HostedOutcome) (audioData : List Nat) :
    Except String String × AdapterTrace :=
  if audioData.length = 0 then (.ok "", .empty)
  else
    let _wav := convertToWAV audioData
    let req : AdapterRequest := .hostedCall baseURL cfg.model cfg.language
    match hosted with
    | .failure msg => (.error msg, ⟨[req], []⟩)
    | .success text => (.ok text, ⟨[req], []⟩)

/-- Go `Transcribe` of each adapter variant, dispatching on the constructor.
The `hosted` oracle feeds the go-openai-style clients, `raw` feeds the
whisper.cpp adapter's plain HTTP client. -/
def adapterTranscribe (a : Adapter) (hosted : HostedOutcome) (raw : HttpOutcome)
    (audioData : List Nat) : Except String String × AdapterTrace :=
  match a with
  | .openai cfg => hostedTranscribe "https://api.openai.com/v1" cfg hosted audioData
  | .groqTranscription cfg => hostedTranscribe "https://api.groq.com/openai/v1" cfg hosted audioData
  | .groqTranslation cfg => hostedTranscribe "https://api.groq.com/openai/v1" cfg hosted audioData
  | .mistral cfg => mistralTranscribe cfg hosted audioData
  | .whisperCpp cfg => whisperCppTranscribe cfg raw audioData

/-- C3: For every transcription adapter, calling Transcribe with a
zero-length audio byte slice returns the empty string and a nil error
without performing any HTTP request (no request is constructed or sent) —
for every possible network behaviour. -/
theorem transcribe_empty_audio_no_network
    (a : Adapter) (hosted : HostedOutcome) (raw : HttpOutcome) :
    adapterTranscribe a hosted raw [] = (.ok "", AdapterTrace.empty) := by
  cases a <;> rfl

/-- The string `sub` occurs somewhere inside `s` (substring containment). -/
def containsText (s sub : String) : Prop := sub.toList <:+: s.toList

/-- A whisper.cpp adapter configuration pointing at a local server. -/
def whisperCfg : TranscriberConfig :=
  { provider := "whisper-cpp", apiKey := "", language := "", model := "",
    serverURL := "http://127.0.0.1:8025/inference" }

/-- C8 (counterexample): a Transcribe call against the whisper.cpp server
that receives status 500 with body "boom" returns an error that reports the
status code but does NOT contain the response body: the body is only
logged, so the claim that the error reports "a truncated copy of the
response body as the cause" is false at this input. -/
theorem whisperCpp_error_omits_response_body :
    (whisperCppTranscribe whisperCfg (.response ⟨500, "boom", none⟩) [1, 2, 3]).1 =
      .error "whisper.cpp server error: status 500" ∧
    containsText "whisper.cpp server error: status 500" "500" ∧
    ¬ containsText "whisper.cpp server error: status 500" "boom" :=
  ⟨rfl, by unfold containsText; decide, by unfold containsText; decide⟩

/-- C8 (amended): for every Transcribe call against the local whisper.cpp
server that receives an HTTP response with a non-200 status code, the
returned error reports the numeric status code; the response body is
written to the log, not included in the returned error. -/
theorem whisperCpp_non200_reports_status_and_logs_body
    (cfg : TranscriberConfig) (r : HttpResponse) (audioData : List Nat)
    (hne : audioData ≠ []) (hst : r.statusCode ≠ 200) :
    whisperCppTranscribe cfg (.response r) audioData =
      (.error ("whisper.cpp server error: status " ++ toString r.statusCode),
       ⟨[.rawPost cfg.serverURL cfg.language],
        ["whisper-cpp-adapter: server returned status " ++
         toString r.statusCode ++ ": " ++ r.body]⟩) := by
  have h0 : ¬ audioData.length = 0 := by simpa using hne
  simp [whisperCppTranscribe, h0, hst]

/-- Witness for C8's amended theorem at a concrete input. -/
theorem whisperCpp_non200_reports_status_and_logs_body_witness :
    ([1] ≠ ([] : List Nat)) ∧ (500 ≠ 200) ∧
    whisperCppTranscribe whisperCfg (.response ⟨500, "boom", none⟩) [1] =
      (.error ("whisper.cpp server error: status " ++ toString 500),
       ⟨[.rawPost whisperCfg.serverURL whisperCfg.language],
        ["whisper-cpp-adapter: server returned status " ++
         toString 500 ++ ": " ++ "boom"]⟩) :=
  ⟨by decide, by decide,
   whisperCpp_non200_reports_status_and_logs_body whisperCfg ⟨500, "boom", none⟩ [1]
     (by decide) (by decide)⟩

/-! ## Injector (internal/injection)

The mode-based injector (`injector.Inject` of the injection package as
present under src/) is embedded with an explicit trace of the external tool
invocations it performs; the behaviour of the external tools is an oracle
argument. -/

/-- The mode-based `injection.Config`. -/
structure InjModeConfig where
  mode : String
  restoreClipboard : Bool
  wtypeTimeout : Duration
  wtypeDelay : Duration
  clipboardTimeout : Duration
deriving Repr, DecidableEq

/-- The behaviour of the external tools during one `Inject` call: `none`
models success of the corresponding step, `some msg` its failure. -/
structure InjEnv where
  clipboardToolsMissing : Option String
  previousClipboard : String
  setClipboardFailure : Option String
  typeTextFailure : Option String
deriving Repr, DecidableEq

/-- One external operation performed by the injector. -/
inductive InjOp where
  | readClip
  | writeClip (text : String)
  | typeTxt (text : String)
  | backendInject (backend text : String)
deriving Repr, DecidableEq

/-- Go `injector.Inject` (mode-based): reject empty text first; for the
`clipboard` and `fallback` modes copy to the clipboard (reading the old
content first when `RestoreClipboard` is set); then dispatch on the mode —
`clipboard` is done, `type` types the text and fails when wtype fails,
`fallback` types the text but swallows a typing failure because the
clipboard already holds the text; finally the old clipboard is restored in
a background goroutine (modelled as a trailing write) only when
`RestoreClipboard` is set and the old content was non-empty. -/
def injectMode (cfg : InjModeConfig) (env : InjEnv) (text : String) :
    Except String Unit × List InjOp :=
  if text = "" then (.error "cannot inject empty text", [])
  else
    let wantsClipboard := cfg.mode = "clipboard" || cfg.mode = "fallback"
    let preOps : List InjOp := if cfg.restoreClipboard then [.readClip] else []
    let original := if cfg.restoreClipboard then env.previousClipboard else ""
    let restoreOps : List InjOp :=
      if cfg.restoreClipboard && original ≠ "" then [.writeClip original] else []
    if wantsClipboard then
      match env.clipboardToolsMissing with
      | some e => (.error ("clipboard tools not available: " ++ e), [])
      | none =>
        match env.setClipboardFailure with
        | some e =>
          (.error ("failed to copy text to clipboard: " ++ e), preOps ++ [.writeClip text])
        | none =>
          let ops := preOps ++ [.writeClip text]
          if cfg.mode = "clipboard" then (.ok (), ops)
          else -- fallback: try typing, swallow the failure (clipboard already set)
            match env.typeTextFailure with
            | some _ => (.ok (), ops ++ [.typeTxt text])
            | none => (.ok (), ops ++ [.typeTxt text] ++ restoreOps)
    else if cfg.mode = "type" then
      match env.typeTextFailure with
      | some e => (.error ("failed to type text: " ++ e), [.typeTxt text])
      | none => (.ok (), [.typeTxt text])
    else (.error ("unsupported injection mode: " ++ cfg.mode), [])

/-- Errors of the backends-chain injector. -/
inductive InjChainError where
  | emptyText
  | allBackendsFailed (attempts : List (String × String))
deriving Repr, DecidableEq

/-- Modelled from the spec: the backends-chain `injector.Inject` (the
current chain injector's source file is not under src/; its tests are).
Per §4.4, empty text is rejected with a distinct error before any backend
is tried — `TestInjector_EmptyText` pins the message `cannot inject empty
text` — and otherwise each configured backend is tried in order, `available`
before `inject`, the first success winning, with an aggregated error
listing the attempts when every backend fails. -/
def injectChain (backends : List String)
    (avail : String → Option String) (run : String → Option String)
    (text : String) : Except InjChainError Unit × List InjOp :=
  if text = "" then (.error .emptyText, [])
  else
    let rec tryBackends : List String → List (String × String) →
        Except InjChainError Unit × List InjOp
      | [], attempts => (.error (.allBackendsFailed attempts.reverse), [])
      | b :: rest, attempts =>
        match avail b with
        | some e => tryBackends rest ((b, e) :: attempts)
        | none =>
          match run b with
          | some e =>
            let (res, ops) := tryBackends rest ((b, e) :: attempts)
            (res, .backendInject b text :: ops)
          | none => (.ok (), [.backendInject b text])
    tryBackends backends []

/-- C4: For every injector configuration and every context (every tool
behaviour), calling Inject with the empty string returns a distinct error
("cannot inject empty text") before any injection backend or external tool
is attempted, and no clipboard or typing operation is performed — for the
mode-based injector present under src/ and for the backends-chain injector
its tests describe. -/
theorem inject_empty_text_rejected_before_backends
    (cfg : InjModeConfig) (env : InjEnv)
    (backends : List String) (avail run : String → Option String) :
    injectMode cfg env "" = (.error "cannot inject empty text", []) ∧
    injectChain backends avail run "" = (.error .emptyText, []) :=
  ⟨rfl, rfl⟩

/-! ## Daemon (internal/daemon) -/

/-- Go `pipeline.Status` (string constants `idle`, `recording`, `transcribing`,
`injecting` per the pipeline tests). -/
inductive Status where
  | idle
  | recording
  | transcribing
  | injecting
deriving Repr, DecidableEq

/-- The status names used on the wire (`STATUS status=<name>`). -/
def statusName : Status → String
  | .idle => "idle"
  | .recording => "recording"
  | .transcribing => "transcribing"
  | .injecting => "injecting"

/-- Modelled from the spec: the pipeline object as the daemon observes it
(the pipeline package's source is not under src/, only its tests are). The
daemon reads `Status()`, sends `Inject` on the action channel, and calls
`Stop()`; `injectActionsSent` counts the actions delivered. -/
structure PipelineState where
  status : Status
  injectActionsSent : Nat
deriving Repr, DecidableEq

/-- Modelled from the spec: a pipeline fresh from `pipeline.New(conf)`
followed by `Run(ctx)` — the driver enters Recording (§4.6, step 1). -/
def newRunPipeline : PipelineState := { status := .recording, injectActionsSent := 0 }

/-- The daemon's state: the single pipeline slot (`d.pipeline`), the
notifications sent so far (through `d.notifier`), and whether the daemon
context has been cancelled (`d.cancel()`). -/
structure DaemonState where
  pipeline : Option PipelineState
  notificationsSent : List MessageType
  ctxCancelled : Bool
deriving Repr, DecidableEq

/-- Go `Daemon.status`: Idle when the slot is nil, else the pipeline's own
status. -/
def DaemonState.dstatus (s : DaemonState) : Status :=
  match s.pipeline with
  | none => .idle
  | some p => p.status

/-- Go `Daemon.stopPipeline`: take the pipeline out of the slot, set the slot
to nil, and stop the removed pipeline (the stopped pipeline is no longer
referenced, so only the cleared slot is observable). -/
def DaemonState.stopPipeline (s : DaemonState) : DaemonState :=
  { s with pipeline := none }

/-- Go `Daemon.toggle`: branch on the observed status. From Idle a new
pipeline is built from a fresh config snapshot, run, and installed in the
slot (returning `true` for "a pipeline was constructed"); from Recording
and Injecting the pipeline is stopped; from Transcribing the `Inject`
action is sent to the current pipeline. -/
def DaemonState.toggle (s : DaemonState) : DaemonState × Bool :=
  match s.dstatus with
  | .idle =>
    ({ s with pipeline := some newRunPipeline,
              notificationsSent := s.notificationsSent ++ [.recordingStarted] }, true)
  | .recording =>
    ({ s.stopPipeline with
         notificationsSent := s.notificationsSent ++ [.recordingAborted] }, false)
  | .transcribing =>
    (match s.pipeline with
     | some p =>
       { s with pipeline := some { p with injectActionsSent := p.injectActionsSent + 1 },
                notificationsSent := s.notificationsSent ++ [.transcribing] }
     | none => { s with notificationsSent := s.notificationsSent ++ [.transcribing] }, false)
  | .injecting =>
    ({ s.stopPipeline with
         notificationsSent := s.notificationsSent ++ [.injectionAborted] }, false)

/-- Go `Daemon.cancelPipeline`: ignore when idle, else stop the pipeline and
notify "operation cancelled". -/
def DaemonState.cancelPipeline (s : DaemonState) : DaemonState :=
  match s.dstatus with
  | .idle => s
  | _ =>
    { s.stopPipeline with
        notificationsSent := s.notificationsSent ++ [.operationCancelled] }

/-- Go `Daemon.onConfigReload`: stop the pipeline, swap the notifier, notify
"config reloaded". -/
def DaemonState.onConfigReload (s : DaemonState) : DaemonState :=
  { s.stopPipeline with
      notificationsSent := s.notificationsSent ++ [.configReloaded] }

/-- Go `bufio.Reader.ReadString('\n')` on the bytes a client connection
delivers before closing: returns the data up to and including the first
newline; when the connection closes before a newline arrives, returns the
data read so far together with an error (`io.EOF`). -/
def readLine : List Char → List Char × Option String
  | [] => ([], some "EOF")
  | c :: rest =>
    if c = '\n' then ([c], none)
    else (c :: (readLine rest).1, (readLine rest).2)

/-- Modelled from the spec: `bus.ProtoVer` (the bus package is not under
src/); the concrete version string is irrelevant to every claim. -/
def ProtoVer : String := "1"

/-- An apostrophe, kept out of string literals. -/
def squote : String := String.singleton (Char.ofNat 39)

/-- A backslash, kept out of string literals. -/
def bslash : String := String.singleton (Char.ofNat 92)

/-- Go's `%q` formatting of a byte: a quoted character literal, with the
common escapes. -/
def goQuoteChar (c : Char) : String :=
  let esc :=
    if c = '\n' then bslash ++ "n"
    else if c = '\t' then bslash ++ "t"
    else if c = '\r' then bslash ++ "r"
    else if c = Char.ofNat 39 then bslash ++ squote
    else if c = Char.ofNat 92 then bslash ++ bslash
    else String.singleton c
  squote ++ esc ++ squote

/-- Go `Daemon.handle`: read one line from the connection; on a read error
reply `ERR read_error: <err>`; on an empty line reply `ERR empty`; else
dispatch on the first byte — `t` toggle, `c` cancel, `s` status query,
`v` protocol version, `q` quit — and reply `ERR unknown=<quoted byte>` for
any other byte. Returns the daemon state after the connection and the
reply line (without its trailing newline). -/
def daemonHandle (s : DaemonState) (input : List Char) : DaemonState × String :=
  match readLine input with
  | (_, some e) => (s, "ERR read_error: " ++ e)
  | (line, none) =>
    match line with
    | [] => (s, "ERR empty")
    | cmd :: _ =>
      if cmd = 't' then ((s.toggle).1, "OK toggled")
      else if cmd = 'c' then (s.cancelPipeline, "OK cancelled")
      else if cmd = 's' then (s, "STATUS status=" ++ statusName s.dstatus)
      else if cmd = 'v' then (s, "STATUS proto=" ++ ProtoVer)
      else if cmd = 'q' then ({ s with ctxCancelled := true }, "OK quitting")
      else (s, "ERR unknown=" ++ goQuoteChar cmd)

/-- One step of the daemon system: a control-bus connection handled, a
config reload, or — modelled from the spec — the pipeline's driver
finishing its session and setting its own status to Idle (§4.6 teardown;
the daemon keeps its reference in the slot). -/
inductive DStep : DaemonState → DaemonState → Prop where
  | handle (s : DaemonState) (input : List Char) : DStep s (daemonHandle s input).1
  | reload (s : DaemonState) : DStep s s.onConfigReload
  | pipelineDone (s : DaemonState) (p : PipelineState) :
      s.pipeline = some p →
      DStep s { s with pipeline := some { p with status := .idle } }

/-- Daemon states reachable from startup (`Daemon.New`: empty slot, nothing
sent, context live). -/
inductive Reachable : DaemonState → Prop where
  | init : Reachable ⟨none, [], false⟩
  | step {s s2 : DaemonState} : Reachable s → DStep s s2 → Reachable s2

/-- The daemon state after a full session: the slot still holds the
finished (Idle) pipeline. -/
def finishedSessionState : DaemonState :=
  { pipeline := some { status := .idle, injectActionsSent := 0 },
    notificationsSent := [.recordingStarted], ctxCancelled := false }

/-- C2 (counterexample): in the reachable daemon state left behind by a
completed session the slot still references the finished pipeline, and
toggle — observing Idle — constructs and installs a new pipeline without
the slot having been nil and without clearing it first: the claim's "any
operation that installs a new pipeline first clears or had a nil pipeline
slot" fails here. -/
theorem toggle_installs_over_occupied_idle_slot :
    Reachable finishedSessionState ∧
    (DaemonState.toggle finishedSessionState).2 = true ∧
    finishedSessionState.pipeline ≠ none := by
  refine ⟨?_, rfl, by simp [finishedSessionState]⟩
  have h0 : Reachable ⟨none, [], false⟩ := .init
  have h1 : Reachable (daemonHandle ⟨none, [], false⟩ ['t', '\n']).1 :=
    .step h0 (.handle _ _)
  exact .step h1 (.pipelineDone _ { status := .recording, injectActionsSent := 0 } rfl)

/-- C2 (amended): the daemon's toggle constructs a new pipeline exactly
when the observed status is Idle; for every non-Idle status (Recording,
Transcribing, Injecting) toggle never constructs a second pipeline; when
toggle does construct one, the observed Idle means the slot was nil or held
an already-finished (Idle) pipeline, and the new pipeline overwrites the
slot, so the single slot keeps referencing at most one pipeline. -/
theorem toggle_constructs_pipeline_only_from_idle (s : DaemonState) :
    ((DaemonState.toggle s).2 = true ↔ s.dstatus = .idle) ∧
    ((DaemonState.toggle s).2 = true →
      (s.pipeline = none ∨ ∃ p, s.pipeline = some p ∧ p.status = .idle) ∧
      (DaemonState.toggle s).1.pipeline = some newRunPipeline) := by
  rcases hs : s.pipeline with _ | p
  · constructor
    · simp [DaemonState.toggle, DaemonState.dstatus, hs]
    · intro _
      constructor
      · exact .inl rfl
      · simp [DaemonState.toggle, DaemonState.dstatus, hs]
  · cases hp : p.status <;>
      simp [DaemonState.toggle, DaemonState.dstatus, hs, hp]

/-- Witness for C2's amended theorem: at daemon startup (empty slot) the
observed status is Idle and toggle does construct and install a pipeline. -/
theorem toggle_constructs_pipeline_only_from_idle_witness :
    (DaemonState.toggle ⟨none, [], false⟩).2 = true ∧
    (DaemonState.toggle ⟨none, [], false⟩).1.pipeline = some newRunPipeline := by
  have h := toggle_constructs_pipeline_only_from_idle ⟨none, [], false⟩
  have ht : (DaemonState.toggle ⟨none, [], false⟩).2 = true := h.1.mpr rfl
  exact ⟨ht, (h.2 ht).2⟩

/-- C6 (counterexample): a client connection that closes before sending any
newline-terminated byte gets the reply `ERR read_error: EOF`, not
`ERR empty`: `ReadString` returns an error whenever the delimiter was not
reached, so the `ERR empty` branch never runs. -/
theorem short_read_is_read_error_not_empty :
    (daemonHandle ⟨none, [], false⟩ []).2 = "ERR read_error: EOF" ∧
    (daemonHandle ⟨none, [], false⟩ []).2 ≠ "ERR empty" :=
  ⟨rfl, by decide⟩

/-- Go `ReadString('\n')` on a stream with no newline: all bytes read, error
`EOF`. -/
theorem readLine_no_newline (input : List Char) (h : '\n' ∉ input) :
    readLine input = (input, some "EOF") := by
  induction input with
  | nil => rfl
  | cons c rest ih =>
    simp only [List.mem_cons, not_or] at h
    have hc : ¬ c = '\n' := fun hc => h.1 hc.symm
    simp [readLine, hc, ih h.2]

/-- C6 (amended): for every client connection whose request is a short read
(the connection closes before a newline-terminated command byte is
received), the daemon's reply is exactly `ERR read_error: EOF`, and the
daemon state is untouched; the `ERR empty` reply is dead code. -/
theorem short_read_replies_read_error (s : DaemonState) (input : List Char)
    (h : '\n' ∉ input) :
    daemonHandle s input = (s, "ERR read_error: EOF") := by
  simp [daemonHandle, readLine_no_newline input h]

/-- Witness for C6's amended theorem: a connection delivering a single
`x` and closing. -/
theorem short_read_replies_read_error_witness :
    '\n' ∉ (['x'] : List Char) ∧
    daemonHandle ⟨none, [], false⟩ ['x'] = (⟨none, [], false⟩, "ERR read_error: EOF") :=
  ⟨by decide, short_read_replies_read_error ⟨none, [], false⟩ ['x'] (by decide)⟩

/-- C7: For every command byte outside {t, c, s, v, q} received on the
control bus, the daemon replies `ERR unknown=…` (quoting the byte) and the
daemon's state is unchanged: the pipeline slot, the pipeline status, the
notifications and the daemon context are identical before and after
handling the connection. -/
theorem unknown_command_replies_err_and_preserves_state
    (s : DaemonState) (input : List Char) (cmd : Char) (rest : List Char)
    (hread : readLine input = (cmd :: rest, none))
    (hcmd : cmd ∉ (['t', 'c', 's', 'v', 'q'] : List Char)) :
    daemonHandle s input = (s, "ERR unknown=" ++ goQuoteChar cmd) := by
  simp only [List.mem_cons, List.mem_singleton, not_or] at hcmd
  obtain ⟨h1, h2, h3, h4, h5⟩ := hcmd
  simp [daemonHandle, hread, h1, h2, h3, h4, h5]

/-- Witness for C7 at the concrete connection sending `x\n`. -/
theorem unknown_command_replies_err_and_preserves_state_witness :
    readLine ['x', '\n'] = (['x', '\n'], none) ∧
    'x' ∉ (['t', 'c', 's', 'v', 'q'] : List Char) ∧
    daemonHandle ⟨none, [], false⟩ ['x', '\n'] =
      (⟨none, [], false⟩, "ERR unknown=" ++ goQuoteChar 'x') :=
  ⟨by decide, by decide,
   unknown_command_replies_err_and_preserves_state ⟨none, [], false⟩ ['x', '\n'] 'x' ['\n']
     (by decide) (by decide)⟩

/-! ## Control-bus client (cmd main) -/

/-- The five thin control-bus client subcommands. -/
inductive Subcommand where
  | toggle
  | cancel
  | statusQuery
  | version
  | stop
deriving Repr, DecidableEq

/-- The command byte each subcommand sends. -/
def commandByte : Subcommand → Char
  | .toggle => 't'
  | .cancel => 'c'
  | .statusQuery => 's'
  | .version => 'v'
  | .stop => 'q'

/-- What happens on the wire for one client invocation: the connection
fails, or the daemon's reply line comes back. -/
inductive ConnOutcome where
  | connError (msg : String)
  | reply (line : String)
deriving Repr, DecidableEq

/-- Modelled from the spec: `bus.SendCommand` (the bus package is not under
src/). It performs the one-exchange protocol of §4.1 — send the byte plus
newline, read the reply line — returning the reply; a connection failure
surfaces as an error. -/
def sendCommand (_b : Char) (conn : ConnOutcome) : Except String String :=
  match conn with
  | .connError msg => .error msg
  | .reply line => .ok line

/-- The `failed to …` prefix each subcommand's `RunE` wraps around a
`SendCommand` error. -/
def failText : Subcommand → String
  | .toggle => "failed to toggle recording: "
  | .cancel => "failed to cancel operation: "
  | .statusQuery => "failed to get status: "
  | .version => "failed to get version: "
  | .stop => "failed to stop daemon: "

/-- Go `RunE` of each client subcommand (cmd main): call `bus.SendCommand`
with the subcommand's byte; on error return the wrapped error, otherwise
print the reply (the returned list is what the command printed) and return
nil. Note the reply is printed and `nil` returned whatever the reply says —
`ERR …` replies included. -/
def subcommandRunE (sc : Subcommand) (conn : ConnOutcome) :
    Except String (List String) :=
  match sendCommand (commandByte sc) conn with
  | .error e => .error (failText sc ++ e)
  | .ok resp => .ok [resp]

/-- Go `main` of the client binary: `_ = rootCmd.Execute()`. Cobra's `Execute`
returns the `RunE` error (after printing it), and `main` discards it and
returns normally, so the process exit status is 0 on every path. -/
def mainExitCode (sc : Subcommand) (conn : ConnOutcome) : Nat :=
  let _ := subcommandRunE sc conn
  0

/-- C5 (counterexample): when the connection to the daemon fails, the
client process still exits with code 0 — `main` discards the error that
`rootCmd.Execute()` returns — contradicting the claim that the exit code is
nonzero on connection failure (the same happens for `ERR` replies, where
`RunE` prints the reply and returns nil). -/
theorem client_exit_zero_on_connection_failure :
    mainExitCode .toggle (.connError "connect: no such file or directory") = 0 ∧
    subcommandRunE .toggle (.connError "connect: no such file or directory") =
      .error "failed to toggle recording: connect: no such file or directory" :=
  ⟨rfl, rfl⟩

/-- C5 (amended): for every control-bus client subcommand and every
connection outcome the process exit code is 0: on an `OK`/`STATUS` (indeed
any) reply the reply is printed and `RunE` returns nil, and on a connection
failure `RunE` returns an error that `main` discards, so no path exits
nonzero. -/
theorem client_exit_code_always_zero (sc : Subcommand) (conn : ConnOutcome) :
    mainExitCode sc conn = 0 ∧
    (∀ line, conn = .reply line → subcommandRunE sc conn = .ok [line]) := by
  constructor
  · rfl
  · rintro line rfl
    rfl

/-- Witness for C5's amended theorem at the `toggle` subcommand receiving
`OK toggled`. -/
theorem client_exit_code_always_zero_witness :
    mainExitCode .toggle (.reply "OK toggled") = 0 ∧
    subcommandRunE .toggle (.reply "OK toggled") = .ok ["OK toggled"] :=
  ⟨(client_exit_code_always_zero .toggle (.reply "OK toggled")).1,
   (client_exit_code_always_zero .toggle (.reply "OK toggled")).2 "OK toggled" rfl⟩

/-! ## Legacy injection-config migration (config.go Load / migrateInjectionMode) -/

/-- What `Load` decodes from a config file: the main `Config` (an absent
`injection.backends` key decodes to the empty list, absent duration keys to
zero) plus the legacy `injection.mode` key read by the second
`toml.DecodeFile` pass (absent: empty string). -/
structure FileModel where
  config : Config
  legacyMode : String
deriving Repr, DecidableEq

/-- The backend list `migrateInjectionMode` assigns for a legacy mode. -/
def migratedBackends (mode : String) : List String :=
  if mode = "clipboard" then ["clipboard"]
  else if mode = "type" then ["wtype"]
  else if mode = "fallback" then ["wtype", "clipboard"]
  else ["ydotool", "wtype", "clipboard"]

/-- Go `Config.migrateInjectionMode` from config.go: replace the backends list
according to the legacy mode (unknown or empty modes get the default
chain), then default `YdotoolTimeout` to 5s when it is unset (zero). -/
def migrateInjectionMode (c : Config) (mode : String) : Config :=
  let c2 := { c with injection := { c.injection with backends := migratedBackends mode } }
  if c2.injection.ydotoolTimeout = 0 then
    { c2 with injection := { c2.injection with ydotoolTimeout := 5 * second } }
  else c2

/-- Go `Load` from config.go after the file has been decoded (the
file-system handling is elided): when the decoded backends list is empty,
the legacy mode is decoded and migrated; otherwise the decoded config is
returned as is. -/
def loadModel (f : FileModel) : Config :=
  if f.config.injection.backends = [] then migrateInjectionMode f.config f.legacyMode
  else f.config

/-- A decoded config body shared by the C9 files: valid openai settings,
and injection timeouts as a legacy file carries them — `wtype_timeout` and
`clipboard_timeout` set, no `ydotool_timeout` key (decodes to 0). -/
def c9Body : Config :=
  { recording :=
      { sampleRate := 16000, channels := 1, format := "s16", bufferSize := 8192,
        device := "", channelBufferSize := 30, timeout := 300 * second }
    transcription :=
      { provider := "openai", apiKey := "test-key", language := "", model := "whisper-1",
        serverURL := "" }
    injection :=
      { backends := [], ydotoolTimeout := 0, wtypeTimeout := 5 * second,
        wtypeDelay := 0, clipboardTimeout := 3 * second }
    notifications :=
      { enabled := true, type := "log"
        messages :=
          { recordingStarted := ⟨"", ""⟩, transcribing := ⟨"", ""⟩,
            configReloaded := ⟨"", ""⟩, operationCancelled := ⟨"", ""⟩,
            recordingAborted := ⟨"", ""⟩, injectionAborted := ⟨"", ""⟩ } } }

/-- The legacy file: `injection.mode = "clipboard"`, no backends key. -/
def legacyClipboardFile : FileModel := { config := c9Body, legacyMode := "clipboard" }

/-- The same file rewritten in the migrated backends form
(`clipboard` → `backends = ["clipboard"]`), with no other key touched. -/
def backendsClipboardFile : FileModel :=
  { config := { c9Body with
      injection := { c9Body.injection with backends := ["clipboard"] } }
    legacyMode := "" }

/-- C9 (counterexample): loading the legacy `mode = "clipboard"` file and
loading its plain migrated backends form do NOT produce equal snapshots:
migration defaults the absent `ydotool_timeout` to 5s, while the
backends-form load leaves it at 0, so the snapshots differ exactly in that
injection timeout field. -/
theorem migration_differs_on_ydotool_timeout :
    loadModel legacyClipboardFile ≠ loadModel backendsClipboardFile ∧
    (loadModel legacyClipboardFile).injection.ydotoolTimeout = 5 * second ∧
    (loadModel backendsClipboardFile).injection.ydotoolTimeout = 0 := by
  refine ⟨?_, rfl, rfl⟩
  intro h
  have h2 := congrArg (fun c => c.injection.ydotoolTimeout) h
  simp [loadModel, migrateInjectionMode, migratedBackends,
    legacyClipboardFile, backendsClipboardFile, c9Body, second] at h2

/-- C9 (amended): for every legacy mode in {clipboard, type, fallback} and
every decoded config whose backends list is empty, loading the
`injection.mode` file and loading the file already written in the migrated
backends form produce equal configuration snapshots — provided the
backends-form file also carries the migrated `ydotool_timeout` (5s when the
legacy file had none, the legacy file's value otherwise); the remaining
injection timeout fields agree unconditionally. -/
theorem migration_matches_backends_form
    (c : Config) (mode : String)
    (hmode : mode ∈ (["clipboard", "type", "fallback"] : List String))
    (hempty : c.injection.backends = []) :
    loadModel { config := c, legacyMode := mode } =
      loadModel
        { config := { c with injection := { c.injection with
            backends := migratedBackends mode,
            ydotoolTimeout := if c.injection.ydotoolTimeout = 0 then 5 * second
              else c.injection.ydotoolTimeout } }
          legacyMode := "" } := by
  fin_cases hmode <;>
    by_cases hy : c.injection.ydotoolTimeout = 0 <;>
      simp [loadModel, migrateInjectionMode, migratedBackends, hempty, hy, second]

/-- Witness for C9's amended theorem: the concrete `mode = "fallback"`
legacy file against its completed backends form. -/
theorem migration_matches_backends_form_witness :
    ("fallback" ∈ (["clipboard", "type", "fallback"] : List String)) ∧
    c9Body.injection.backends = [] ∧
    loadModel { config := c9Body, legacyMode := "fallback" } =
      loadModel
        { config := { c9Body with injection := { c9Body.injection with
            backends := migratedBackends "fallback",
            ydotoolTimeout := if c9Body.injection.ydotoolTimeout = 0 then 5 * second
              else c9Body.injection.ydotoolTimeout } }
          legacyMode := "" } :=
  ⟨by decide, rfl,
   migration_matches_backends_form c9Body "fallback" (by decide) rfl⟩

end Hyprvoice
